import Mathlib

set_option maxRecDepth 1000000
set_option maxHeartbeats 4000000

/-!
Verification development for the pipeline-flow wizard (a React/TypeScript
step-by-step generator of CI/CD configuration files).

Text is modelled as `Str := List Char`.  The ad hoc string substitutions the
editors perform with JavaScript `String.prototype.replace` are modelled by
dedicated executable functions: `replaceFirst` models `replace` with a string
pattern (first occurrence only), `replaceAll` models `replace` with a global
regex whose pattern is a literal, and the remaining helpers model the specific
non-literal regexes appearing in `MonitoringSetup.tsx` (version numbers, lazy
spans such as `volumes:[\s\S]*?emptyDir: \x7b\x7d`, and `storage: .*Gi`).

Untyped JavaScript values flowing through the shared configuration store are
modelled by the inductive `JVal`; object spread update `\x7b...prev, [k]: v\x7d`
is `setField`, truthiness is `truthy`, and `a || b` in string interpolation
position is `jsOr`.

Template string constants are transcribed verbatim from the source files;
braces, quotes, apostrophes and a few other characters appear as `\xHH`
escapes.
-/

abbrev Str : Type := List Char

/-- Tail-recursive list length, used to compute replacement fuel.  The
accumulator is matched on so that it is kept in evaluated form. -/
def strLenAux : Nat → Str → Nat
  | n, [] => n
  | 0, _ :: rest => strLenAux 1 rest
  | m + 1, _ :: rest => strLenAux (m + 1 + 1) rest

def strLen (s : Str) : Nat := strLenAux 0 s

/-- Does `pat` occur as a contiguous substring of `s`?  Models JS
`String.prototype.includes`. -/
def containsSub : Str → Str → Bool
  | [], pat => pat.isEmpty
  | c :: rest, pat => pat.isPrefixOf (c :: rest) || containsSub rest pat

/-- Character-list equality as a boolean, written tail-recursively so that
concrete instances evaluate in constant stack space. -/
def strEq : Str → Str → Bool
  | [], [] => true
  | a :: as, b :: bs => a == b && strEq as bs
  | _, _ => false

/-- Worker for `replaceFirst`, carrying the scanned prefix reversed. -/
def replaceFirstAux (pat repl : Str) : Str → Str → Str
  | acc, [] => acc.reverse
  | acc, c :: rest =>
    if pat.isPrefixOf (c :: rest) then acc.reverse ++ repl ++ (c :: rest).drop pat.length
    else replaceFirstAux pat repl (c :: acc) rest

/-- JS `s.replace(pat, repl)` with a *string* pattern: replaces only the first
occurrence of `pat` in `s` (the whole string is returned unchanged when `pat`
does not occur). -/
def replaceFirst (s pat repl : Str) : Str :=
  replaceFirstAux pat repl [] s

/-- Worker for `splitFirst`, carrying the scanned prefix reversed. -/
def splitFirstAux (pat : Str) : Str → Str → Option (Str × Str)
  | acc, [] => if pat.isEmpty then some (acc.reverse, []) else none
  | acc, c :: rest =>
    if pat.isPrefixOf (c :: rest) then some (acc.reverse, (c :: rest).drop pat.length)
    else splitFirstAux pat (c :: acc) rest

/-- Split `s` at the first occurrence of `pat`: returns the part before the
match and the part after it. -/
def splitFirst (s pat : Str) : Option (Str × Str) :=
  splitFirstAux pat [] s

/-- Fuel-driven worker for `replaceAll`; one fuel unit is spent per match, and
a match of a nonempty pattern consumes at least one character, so `s.length`
fuel suffices. -/
def replaceAllF : Nat → Str → Str → Str → Str
  | 0, s, _, _ => s
  | fuel + 1, s, pat, repl =>
    match splitFirst s pat with
    | none => s
    | some (pre, post) => pre ++ repl ++ replaceAllF fuel post pat repl

/-- JS `s.replace(/pat/g, repl)` where the regex pattern is a literal string:
replaces every (non-overlapping, leftmost-first) occurrence. -/
def replaceAll (s pat repl : Str) : Str := replaceAllF (strLen s) s pat repl

/-- Index just past the *last* occurrence of `pat` in `s` (used for the greedy
`.*Gi` tail of the storage-size regexes). -/
def lastInfixEnd : Str → Str → Option Nat
  | [], pat => if pat.isEmpty then some 0 else none
  | c :: rest, pat =>
    match lastInfixEnd rest pat with
    | some k => some (k + 1)
    | none => if pat.isPrefixOf (c :: rest) then some pat.length else none

/-- Match the regex tail `\d+\.\d+\.\d+` at the head of `s`, returning the
remainder after the match. -/
def matchSemVerTail (s : Str) : Option Str :=
  let p1 := s.span (fun ch => ch.isDigit)
  if p1.1.isEmpty then none else
  match p1.2 with
  | '.' :: r2 =>
    let p2 := r2.span (fun ch => ch.isDigit)
    if p2.1.isEmpty then none else
    match p2.2 with
    | '.' :: r4 =>
      let p3 := r4.span (fun ch => ch.isDigit)
      if p3.1.isEmpty then none else some p3.2
    | _ => none
  | _ => none

/-- Find the first position where `pre` matches and the tail matcher `m`
succeeds on the text after it; returns the part before the match and the
remainder after it.  This is the leftmost-match rule of a JS regex of shape
`pre` followed by a tail pattern. -/
def scanFirstMatchAux (pre : Str) (m : Str → Option Str) : Str → Str → Option (Str × Str)
  | _, [] => none
  | acc, c :: rest =>
    if pre.isPrefixOf (c :: rest) then
      match m ((c :: rest).drop pre.length) with
      | some rem => some (acc.reverse, rem)
      | none => scanFirstMatchAux pre m (c :: acc) rest
    else scanFirstMatchAux pre m (c :: acc) rest

def scanFirstMatch (pre : Str) (m : Str → Option Str) (s : Str) : Option (Str × Str) :=
  scanFirstMatchAux pre m [] s

/-- Worker for global replacement of a regex of shape `pre` followed by a tail
recognised by `m` (e.g. `prom\/prometheus:v` followed by `\d+\.\d+\.\d+`);
each whole match is replaced by `repl`.  One fuel unit per match. -/
def replaceScanAllF : Nat → Str → Str → (Str → Option Str) → Str → Str
  | 0, s, _, _, _ => s
  | fuel + 1, s, pre, m, repl =>
    match scanFirstMatch pre m s with
    | none => s
    | some (before, rem) => before ++ repl ++ replaceScanAllF fuel rem pre m repl

def replaceScanAll (s pre : Str) (m : Str → Option Str) (repl : Str) : Str :=
  replaceScanAllF (strLen s) s pre m repl

/-- Worker for global replacement of a regex of shape
`startPat[\s\S]*?END`: a match begins at an occurrence of `startPat` and the
lazy middle ends at the earliest completion found by `endFind` (which receives
the text following `startPat` and returns the remainder after the match end).
If the earliest `startPat` occurrence has no completion then no later one has
either, so the rest of the string is returned unchanged. -/
def replaceSpanAllF : Nat → Str → Str → (Str → Option Str) → Str → Str
  | 0, s, _, _, _ => s
  | fuel + 1, s, startPat, endFind, repl =>
    match splitFirst s startPat with
    | none => s
    | some (pre, afterStart) =>
      match endFind afterStart with
      | none => s
      | some rem => pre ++ repl ++ replaceSpanAllF fuel rem startPat endFind repl

def replaceSpanAll (s startPat : Str) (endFind : Str → Option Str) (repl : Str) : Str :=
  replaceSpanAllF (strLen s) s startPat endFind repl

/-- Lazy-span global replacement where the span terminator is the literal
`endPat`, as in `/      volumes:[\s\S]*?emptyDir: \x7b\x7d/g`. -/
def replaceSpanAllLit (s startPat endPat repl : Str) : Str :=
  replaceSpanAll s startPat (fun after => (splitFirst after endPat).map (fun p => p.2)) repl

/-- Tail matcher for the regex fragment `storage: .*Gi` (applied to the text
after a `storage: ` occurrence): succeeds when the rest of the current line
contains `Gi`, consuming greedily through the last `Gi` on that line. -/
def storageLineTail (after : Str) : Option Str :=
  match lastInfixEnd (after.takeWhile (fun ch => ch ≠ '\n')) (("Gi").data) with
  | some k => some (after.drop k)
  | none => none

/-- Completion scanner for the regex tail `[\s\S]*?storage: .*Gi`: the lazy
middle ends at the earliest `storage: ` occurrence whose line contains `Gi`. -/
def storageGiEnd (after : Str) : Option Str :=
  (scanFirstMatch (("storage: ").data) storageLineTail after).map (fun p => p.2)

/-- JS `s.replace(/storage: .*Gi/g, repl)`: every occurrence of `storage: `
with a `Gi` later on the same line is replaced (greedily through the last `Gi`
of the line) by `repl`. -/
def replaceStorageAll (s repl : Str) : Str :=
  replaceScanAll s (("storage: ").data) storageLineTail repl

/-- JS `s.replace(/PAT: .*$/m, repl)` (no `g` flag): the first occurrence of
`pat` extended greedily to the end of its line is replaced by `repl`. -/
def replaceLineFromFirst (s pat repl : Str) : Str :=
  match splitFirst s pat with
  | some (pre, post) => pre ++ repl ++ post.dropWhile (fun ch => ch ≠ '\n')
  | none => s

/-- JS `name.split('.')[0]`. -/
def baseName (name : String) : Str :=
  (name.data).takeWhile (fun ch => ch ≠ '.')

/-- JS `s.charAt(0).toUpperCase() + s.slice(1)`. -/
def capFirst : Str → Str
  | [] => []
  | c :: rest => c.toUpper :: rest

/-- Untyped JavaScript values as they flow through the shared configuration
store (`Record<string, any>`) and the editors' settings objects. -/
inductive JVal : Type where
  | undefined : JVal
  | bool : Bool → JVal
  | num : Int → JVal
  | str : Str → JVal
  | arr : List JVal → JVal
  | obj : List (String × JVal) → JVal

/-- JavaScript truthiness. -/
def truthy : JVal → Bool
  | .undefined => false
  | .bool b => b
  | .num n => !(n == 0)
  | .str s => !s.isEmpty
  | .arr _ => true
  | .obj _ => true

/-- JS `String(v)` as used in template-literal interpolation.  Array
stringification (comma-joined elements) is not modelled because no code path
in the repository interpolates an array. -/
def jtoStr : JVal → Str
  | .undefined => ("undefined").data
  | .bool true => ("true").data
  | .bool false => ("false").data
  | .num n => (toString n).data
  | .str s => s
  | .arr _ => []
  | .obj _ => ("[object Object]").data

/-- First-match association lookup, the access `o[k]` for plain objects. -/
def lookupVal : List (String × JVal) → String → Option JVal
  | [], _ => none
  | (k, v) :: rest, key => if k = key then some v else lookupVal rest key

/-- JS object spread update `\x7b ...prev, [k]: v \x7d`: an existing key keeps
its position and gets the new value, a new key is appended. -/
def setField : List (String × JVal) → String → JVal → List (String × JVal)
  | [], key, v => [(key, v)]
  | (k, w) :: rest, key, v =>
    if k = key then (key, v) :: rest else (k, w) :: setField rest key v

/-- Property access `o.k` / `o?.k`: `undefined` on a missing key or a
non-object receiver (the latter only ever reached through optional
chaining in the source). -/
def jget : JVal → String → JVal
  | .obj fields, key => (lookupVal fields key).getD .undefined
  | _, _ => .undefined

/-- `\x7b ...prev, [key]: v \x7d` on a `JVal`; every receiver in the source is
an object. -/
def jset : JVal → String → JVal → JVal
  | .obj fields, key, v => .obj (setField fields key v)
  | _, key, v => .obj [(key, v)]

/-- `v || dflt` in string-interpolation position. -/
def jsOr (v : JVal) (dflt : Str) : Str :=
  if truthy v then jtoStr v else dflt

/-- The shared configuration store: `Record<string, any>` from
`ConfigContext.tsx`. -/
abbrev Configs : Type := List (String × JVal)

/-- Record access `configs[k]` (`undefined` when the key is absent). -/
def jgetR (configs : Configs) (key : String) : JVal :=
  (lookupVal configs key).getD .undefined

/-- `applyConfig(stepId, config)` from `ConfigContext.tsx`:
`setConfigs(prev => (\x7b ...prev, [stepId]: config \x7d))`. -/
def applyConfig (configs : Configs) (stepId : String) (config : JVal) : Configs :=
  setField configs stepId config

/-- `getConfig(stepId)` from `ConfigContext.tsx`:
`return configs[stepId] || \x7b\x7d`. -/
def getConfig (configs : Configs) (stepId : String) : JVal :=
  match lookupVal configs stepId with
  | some v => if truthy v then v else .obj []
  | none => .obj []

/-- `handleNextStep` of the wizard shell (`Index.tsx`):
`setActiveStep(prev => Math.min(prev + 1, 8))`. -/
def handleNextStepIndex (activeStep : Nat) : Nat :=
  min (activeStep + 1) 8

def defaultJenkinsfile : Str :=
  (("pipeline \x7b\n  agent any\n  \n  environment \x7b\n    DOCKER_USERNAME = \x27DOCKER_USERNAME\x27\n    IMAGE_NAME = \x27go-microservice\x27\n    IMAGE_TAG = \"$\x7bBUILD_NUMBER\x7d\"\n    KUBECONFIG = credentials(\x27kubeconfig\x27)\n  \x7d\n  \n  stages \x7b\n    stage(\x27Checkout\x27) \x7b\n      steps \x7b\n        checkout scm\n      \x7d\n    \x7d\n    \n    stage(\x27Build\x27) \x7b\n      steps \x7b\n        sh \x27go build -o app\x27\n        sh \x27go test ./...\x27\n      \x7d\n    \x7d\n    \n    stage(\x27Docker Build\x27) \x7b\n      steps \x7b\n        withCredentials([string(credentialsId: \x27docker-credentials\x27, variable: \x27DOCKER_PASSWORD\x27)]) \x7b\n          sh \"docker login -u $DOCKER_USERNAME -p $\x7bDOCKER_PASSWORD\x7d\"\n          sh \"docker build -t $DOCKER_USERNAME/$IMAGE_NAME:$\x7bIMAGE_TAG\x7d .\"\n          sh \"docker push $DOCKER_USERNAME/$IMAGE_NAME:$\x7bIMAGE_TAG\x7d\"\n        \x7d\n      \x7d\n    \x7d\n    \n    stage(\x27Deploy to Kubernetes\x27) \x7b\n      steps \x7b\n        sh \"envsubst < k8s/deployment.yaml | kubectl apply -f -\"\n        sh \"kubectl apply -f k8s/service.yaml\"\n        sh \"kubectl apply -f k8s/configmap.yaml\"\n        sh \"kubectl rollout status deployment/$IMAGE_NAME\"\n      \x7d\n    \x7d\n    \n    stage(\x27Health Check\x27) \x7b\n      steps \x7b\n        sh \x27sleep 10\x27 // Wait for deployment to stabilize\n        sh \x27curl -f $(kubectl get svc $IMAGE_NAME -o jsonpath=\"\x7b.status.loadBalancer.ingress[0].ip\x7d\")/health || exit 1\x27\n      \x7d\n    \x7d\n    \n    stage(\x27Setup Monitoring\x27) \x7b\n      steps \x7b\n        sh \"kubectl apply -f k8s/prometheus.yaml\"\n        sh \"kubectl apply -f k8s/grafana.yaml\"\n      \x7d\n    \x7d\n  \x7d\n  \n  post \x7b\n    success \x7b\n      echo \x27Pipeline completed successfully!\x27\n    \x7d\n    failure \x7b\n      echo \x27Pipeline failed!\x27\n    \x7d\n  \x7d\n\x7d"
    ).data)

def defaultDockerfile : Str :=
  (("\x23 Build stage\nFROM golang:1.18-alpine AS builder\n\nWORKDIR /app\n\n\x23 Copy go mod and sum files\nCOPY go.mod go.sum ./\n\n\x23 Download dependencies\nRUN go mod download\n\n\x23 Copy source code\nCOPY . .\n\n\x23 Build the application\nRUN CGO_ENABLED=0 GOOS=linux go build -a -installsuffix cgo -o main ./cmd/api\n\n\x23 Final stage\nFROM alpine:3.16\n\nWORKDIR /app\n\n\x23 Install runtime dependencies\nRUN apk \x2d\x2dno-cache add ca-certificates\n\n\x23 Copy binary from build stage\nCOPY \x2d\x2dfrom=builder /app/main .\n\n\x23 Copy configuration files\nCOPY \x2d\x2dfrom=builder /app/config/config.yaml ./config/\n\n\x23 Expose the application port\nEXPOSE 8080\n\n\x23 Set the entry point\nCMD [\"./main\"]"
    ).data)

def defaultPrometheusYaml : Str :=
  (("apiVersion: v1\nkind: ConfigMap\nmetadata:\n  name: prometheus-config\n  namespace: monitoring\ndata:\n  prometheus.yml: |\n    global:\n      scrape_interval: 15s\n      evaluation_interval: 15s\n    \n    scrape_configs:\n      - job_name: \x27prometheus\x27\n        static_configs:\n          - targets: [\x27localhost:9090\x27]\n      \n      - job_name: \x27go-microservice\x27\n        kubernetes_sd_configs:\n          - role: pod\n        relabel_configs:\n          - source_labels: [__meta_kubernetes_pod_label_app]\n            action: keep\n            regex: go-microservice\n          - source_labels: [__meta_kubernetes_pod_container_port_name]\n            action: keep\n            regex: metrics\n          \n      - job_name: \x27kubernetes-nodes\x27\n        kubernetes_sd_configs:\n          - role: node\n        relabel_configs:\n          - action: labelmap\n            regex: __meta_kubernetes_node_label_(.+)\n      \n      - job_name: \x27kubernetes-pods\x27\n        kubernetes_sd_configs:\n          - role: pod\n        relabel_configs:\n          - source_labels: [__meta_kubernetes_pod_annotation_prometheus_io_scrape]\n            action: keep\n            regex: true\n\x2d\x2d\x2d\napiVersion: apps/v1\nkind: Deployment\nmetadata:\n  name: prometheus\n  namespace: monitoring\nspec:\n  replicas: 1\n  selector:\n    matchLabels:\n      app: prometheus\n  template:\n    metadata:\n      labels:\n        app: prometheus\n    spec:\n      containers:\n      - name: prometheus\n        image: prom/prometheus:v2.34.0\n        args:\n          - \"\x2d\x2dconfig.file=/etc/prometheus/prometheus.yml\"\n          - \"\x2d\x2dstorage.tsdb.path=/prometheus\"\n          - \"\x2d\x2dweb.console.libraries=/etc/prometheus/console_libraries\"\n          - \"\x2d\x2dweb.console.templates=/etc/prometheus/consoles\"\n          - \"\x2d\x2dweb.enable-lifecycle\"\n        ports:\n        - containerPort: 9090\n        volumeMounts:\n        - name: prometheus-config\n          mountPath: /etc/prometheus\n        - name: prometheus-storage\n          mountPath: /prometheus\n      volumes:\n      - name: prometheus-config\n        configMap:\n          name: prometheus-config\n      - name: prometheus-storage\n        emptyDir: \x7b\x7d\n\x2d\x2d\x2d\napiVersion: v1\nkind: Service\nmetadata:\n  name: prometheus\n  namespace: monitoring\nspec:\n  selector:\n    app: prometheus\n  ports:\n  - port: 9090\n    targetPort: 9090"
    ).data)

def defaultGrafanaYaml : Str :=
  (("apiVersion: apps/v1\nkind: Deployment\nmetadata:\n  name: grafana\n  namespace: monitoring\nspec:\n  replicas: 1\n  selector:\n    matchLabels:\n      app: grafana\n  template:\n    metadata:\n      labels:\n        app: grafana\n    spec:\n      containers:\n      - name: grafana\n        image: grafana/grafana:9.0.0\n        ports:\n        - containerPort: 3000\n          name: http\n        env:\n        - name: GF_SECURITY_ADMIN_USER\n          value: admin\n        - name: GF_SECURITY_ADMIN_PASSWORD\n          value: admin123\n        - name: GF_USERS_ALLOW_SIGN_UP\n          value: \"false\"\n        volumeMounts:\n        - name: grafana-storage\n          mountPath: /var/lib/grafana\n      volumes:\n      - name: grafana-storage\n        emptyDir: \x7b\x7d\n\x2d\x2d\x2d\napiVersion: v1\nkind: Service\nmetadata:\n  name: grafana\n  namespace: monitoring\nspec:\n  selector:\n    app: grafana\n  ports:\n  - port: 3000\n    targetPort: 3000\n  type: ClusterIP"
    ).data)

def defaultDashboardJson : Str :=
  (("// ... keep existing code (dashboard JSON definition)"
    ).data)

def defaultAlertsYaml : Str :=
  (("// ... keep existing code (alerts YAML definition)"
    ).data)

def nonPersistentPrometheusStorage : Str :=
  (("      volumes:\n      - name: prometheus-config\n        configMap:\n          name: prometheus-config\n      - name: prometheus-storage\n        emptyDir: \x7b\x7d"
    ).data)

def nonPersistentGrafanaStorage : Str :=
  (("      volumes:\n      - name: grafana-storage\n        emptyDir: \x7b\x7d"
    ).data)

def persistentPrometheusStorageBlock (ns sc size : Str) : Str :=
  (("      volumes:\n      - name: prometheus-config\n        configMap:\n          name: prometheus-config\n      - name: prometheus-storage\n        persistentVolumeClaim:\n          claimName: prometheus-storage\n\x2d\x2d\x2d\napiVersion: v1\nkind: PersistentVolumeClaim\nmetadata:\n  name: prometheus-storage\n  namespace: "
    ).data)
  ++ (ns)
  ++ (("\nspec:\n  accessModes:\n    - ReadWriteOnce\n  storageClassName: "
    ).data)
  ++ (sc)
  ++ (("\n  resources:\n    requests:\n      storage: "
    ).data)
  ++ (size)

def persistentGrafanaStorageBlock (ns sc size : Str) : Str :=
  (("      volumes:\n      - name: grafana-storage\n        persistentVolumeClaim:\n          claimName: grafana-storage\n\x2d\x2d\x2d\napiVersion: v1\nkind: PersistentVolumeClaim\nmetadata:\n  name: grafana-storage\n  namespace: "
    ).data)
  ++ (ns)
  ++ (("\nspec:\n  accessModes:\n    - ReadWriteOnce\n  storageClassName: "
    ).data)
  ++ (sc)
  ++ (("\n  resources:\n    requests:\n      storage: "
    ).data)
  ++ (size)

def jenkinsfileSample (configs : Configs) (buildNumber : Nat) : Str :=
  (("pipeline \x7b\n  agent any\n  \n  environment \x7b\n    DOCKER_USERNAME = \x27"
    ).data)
  ++ (jsOr (jget (jget (jgetR configs ("jenkinsfile")) ("vars")) ("dockerUsername")) (("DOCKER_USERNAME").data))
  ++ (("\x27\n    IMAGE_NAME = \x27"
    ).data)
  ++ (jsOr (jget (jget (jgetR configs ("jenkinsfile")) ("vars")) ("imageName")) (("go-microservice").data))
  ++ (("\x27\n    IMAGE_TAG = \""
    ).data)
  ++ ((Nat.repr buildNumber).data)
  ++ (("\"\n    KUBECONFIG = credentials(\x27"
    ).data)
  ++ (jsOr (jget (jget (jgetR configs ("jenkinsfile")) ("vars")) ("kubeConfigId")) (("kubeconfig").data))
  ++ (("\x27)\n  \x7d\n  \n  stages \x7b\n    stage(\x27Checkout\x27) \x7b\n      steps \x7b\n        checkout scm\n      \x7d\n    \x7d\n    \n    stage(\x27Build\x27) \x7b\n      steps \x7b\n        sh \x27go build -o app\x27\n        sh \x27go test ./...\x27\n      \x7d\n    \x7d\n    \n    stage(\x27Docker Build\x27) \x7b\n      steps \x7b\n        withCredentials([string(credentialsId: \x27"
    ).data)
  ++ (jsOr (jget (jget (jgetR configs ("jenkinsfile")) ("vars")) ("dockerCredentialsId")) (("docker-credentials").data))
  ++ (("\x27, variable: \x27DOCKER_PASSWORD\x27)]) \x7b\n          sh \"docker login -u $DOCKER_USERNAME -p $\x7bDOCKER_PASSWORD\x7d\"\n          sh \"docker build -t $DOCKER_USERNAME/$IMAGE_NAME:$\x7bIMAGE_TAG\x7d .\"\n          sh \"docker push $DOCKER_USERNAME/$IMAGE_NAME:$\x7bIMAGE_TAG\x7d\"\n        \x7d\n      \x7d\n    \x7d\n    \n    stage(\x27Deploy to Kubernetes\x27) \x7b\n      steps \x7b\n        sh \"envsubst < k8s/deployment.yaml | kubectl apply -f -\"\n        sh \"kubectl apply -f k8s/service.yaml\"\n        sh \"kubectl apply -f k8s/configmap.yaml\"\n        sh \"kubectl rollout status deployment/$IMAGE_NAME\"\n      \x7d\n    \x7d\n    \n    stage(\x27Health Check\x27) \x7b\n      steps \x7b\n        sh \x27sleep 10\x27 // Wait for deployment to stabilize\n        sh \x27curl -f $(kubectl get svc $IMAGE_NAME -o jsonpath=\"\x7b.status.loadBalancer.ingress[0].ip\x7d\")/health || exit 1\x27\n      \x7d\n    \x7d\n    \n    stage(\x27Setup Monitoring\x27) \x7b\n      steps \x7b\n        sh \"kubectl apply -f k8s/prometheus.yaml\"\n        sh \"kubectl apply -f k8s/grafana.yaml\"\n      \x7d\n    \x7d\n  \x7d\n  \n  post \x7b\n    success \x7b\n      echo \x27Pipeline completed successfully!\x27\n    \x7d\n    failure \x7b\n      echo \x27Pipeline failed!\x27\n    \x7d\n  \x7d\n\x7d"
    ).data)

def dockerfileSample : Str :=
  (("FROM golang:1.18-alpine AS builder\n\nWORKDIR /app\nCOPY go.mod go.sum ./\nRUN go mod download\nCOPY . .\nRUN go build -o app\n\nFROM alpine:latest\nWORKDIR /app\nCOPY \x2d\x2dfrom=builder /app/app .\nCOPY \x2d\x2dfrom=builder /app/config ./config\n\nEXPOSE 8080\nCMD [\"./app\"]"
    ).data)

def deploymentYamlSample (configs : Configs) (buildNumber : Nat) : Str :=
  (("apiVersion: apps/v1\nkind: Deployment\nmetadata:\n  name: "
    ).data)
  ++ (jsOr (jget (jget (jgetR configs ("jenkinsfile")) ("vars")) ("imageName")) (("example-deployment").data))
  ++ (("\nspec:\n  replicas: 3\n  selector:\n    matchLabels:\n      app: "
    ).data)
  ++ (jsOr (jget (jget (jgetR configs ("jenkinsfile")) ("vars")) ("imageName")) (("example").data))
  ++ (("\n  template:\n    metadata:\n      labels:\n        app: "
    ).data)
  ++ (jsOr (jget (jget (jgetR configs ("jenkinsfile")) ("vars")) ("imageName")) (("example").data))
  ++ (("\n    spec:\n      containers:\n      - name: "
    ).data)
  ++ (jsOr (jget (jget (jgetR configs ("jenkinsfile")) ("vars")) ("imageName")) (("example").data))
  ++ (("\n        image: "
    ).data)
  ++ (jsOr (jget (jget (jgetR configs ("jenkinsfile")) ("vars")) ("dockerUsername")) (("username").data))
  ++ (("/"
    ).data)
  ++ (jsOr (jget (jget (jgetR configs ("jenkinsfile")) ("vars")) ("imageName")) (("example").data))
  ++ ((":"
    ).data)
  ++ ((Nat.repr buildNumber).data)
  ++ (("\n        ports:\n        - containerPort: 8080"
    ).data)

def genericManifestSample (name : String) : Str :=
  (("apiVersion: apps/v1\nkind: "
    ).data)
  ++ (capFirst (baseName name))
  ++ (("\nmetadata:\n  name: example\x2d"
    ).data)
  ++ (baseName name)
  ++ (("\nspec:\n  # Sample configuration for "
    ).data)
  ++ ((name).data)
  ++ (("\n  selector:\n    app: example\n  ports:\n  - port: 80\n    targetPort: 8080"
    ).data)

def defaultFileSample (name : String) : Str :=
  (("\x23 "
    ).data)
  ++ ((name).data)
  ++ (("\n\nThis is a sample content for "
    ).data)
  ++ ((name).data)

/-! ## Per-step editors

Each editor is modelled as a state structure holding its `useState` pieces.
The `useEffect(() => setHasUnsavedChanges(true), [deps])` hook of an editor
fires after the initial render and after any render in which a dependency
changed; this is modelled by the `...Effect` functions, applied after `...Init`
(mount) and inside every state-changing handler.  `...HandleNextStep` returns,
besides the new store and component state, the list of store writes performed
(`applyConfig` calls), one `(stepId, config)` pair per call. -/

/-- Initial `vars` object of `JenkinsfileSetup.tsx`. -/
def defaultJenkinsVars : JVal :=
  .obj [("dockerUsername", .str (("DOCKER_USERNAME").data)),
        ("imageName", .str (("go-microservice").data)),
        ("kubeConfigId", .str (("kubeconfig").data)),
        ("dockerCredentialsId", .str (("docker-credentials").data))]

structure JenkinsState where
  jenkinsfile : Str
  vars : JVal
  hasUnsavedChanges : Bool

/-- The `useState` initialisers of `JenkinsfileSetup`, seeded from
`getConfig('jenkinsfile')`. -/
def jfInit (saved : JVal) : JenkinsState :=
  { jenkinsfile := jsOr (jget saved ("jenkinsfile")) defaultJenkinsfile,
    vars := if truthy (jget saved ("vars")) then jget saved ("vars") else defaultJenkinsVars,
    hasUnsavedChanges := false }

/-- The change-tracking effect `useEffect(..., [jenkinsfile, vars])`. -/
def jfEffect (s : JenkinsState) : JenkinsState :=
  { s with hasUnsavedChanges := true }

/-- Component state right after mount: the effect has run once on the initial
render. -/
def jfMounted (saved : JVal) : JenkinsState :=
  jfEffect (jfInit saved)

/-- `handleVarChange` of `JenkinsfileSetup.tsx`: updates `vars[name]` and
recomputes the buffer from the constant `defaultJenkinsfile`.  The
`dockerUsername` rule uses a *string* pattern (first occurrence only); the
other three use global regexes whose patterns are literals. -/
def jfHandleVarChange (name : String) (value : Str) (s : JenkinsState) : JenkinsState :=
  let vars2 := jset s.vars name (.str value)
  let updated : Str :=
    if name = "dockerUsername" then
      replaceFirst defaultJenkinsfile (("DOCKER_USERNAME").data) value
    else if name = "imageName" then
      replaceAll
        (replaceAll defaultJenkinsfile (("IMAGE_NAME = \x27go-microservice\x27").data)
          ((("IMAGE_NAME = \x27").data) ++ value ++ (("\x27").data)))
        (("deployment/go-microservice").data) ((("deployment/").data) ++ value)
    else if name = "kubeConfigId" then
      replaceAll defaultJenkinsfile (("credentials(\x27kubeconfig\x27)").data)
        ((("credentials(\x27").data) ++ value ++ (("\x27)").data))
    else if name = "dockerCredentialsId" then
      replaceAll defaultJenkinsfile (("credentials(\x27docker-credentials\x27)").data)
        ((("credentials(\x27").data) ++ value ++ (("\x27)").data))
    else defaultJenkinsfile
  jfEffect { s with vars := vars2, jenkinsfile := updated }

/-- The `currentConfig` object built by `handleApplyChanges`. -/
def jfCurrentConfig (s : JenkinsState) : JVal :=
  .obj [("jenkinsfile", .str s.jenkinsfile), ("vars", s.vars)]

/-- `handleApplyChanges`: `applyConfig('jenkinsfile', currentConfig)` then
`setHasUnsavedChanges(false)`. -/
def jfHandleApplyChanges (s : JenkinsState) (store : Configs) : Configs × JenkinsState :=
  (applyConfig store ("jenkinsfile") (jfCurrentConfig s),
   { s with hasUnsavedChanges := false })

/-- `handleNextStep`: apply first iff the unsaved-changes flag is set; also
returns the list of store writes performed. -/
def jfHandleNextStep (s : JenkinsState) (store : Configs) :
    (Configs × JenkinsState) × List (String × JVal) :=
  if s.hasUnsavedChanges then
    (jfHandleApplyChanges s store, [(("jenkinsfile" : String), jfCurrentConfig s)])
  else ((store, s), [])

/-- Initial `vars` object of `DockerfileSetup.tsx`. -/
def defaultDockerVars : JVal :=
  .obj [("goVersion", .str (("1.18-alpine").data)),
        ("baseImage", .str (("alpine:3.16").data)),
        ("port", .str (("8080").data)),
        ("mainPath", .str (("./cmd/api").data))]

structure DockerState where
  dockerfile : Str
  vars : JVal
  hasUnsavedChanges : Bool

def dkInit (saved : JVal) : DockerState :=
  { dockerfile := jsOr (jget saved ("dockerfile")) defaultDockerfile,
    vars := if truthy (jget saved ("vars")) then jget saved ("vars") else defaultDockerVars,
    hasUnsavedChanges := false }

def dkEffect (s : DockerState) : DockerState :=
  { s with hasUnsavedChanges := true }

def dkMounted (saved : JVal) : DockerState :=
  dkEffect (dkInit saved)

/-- `handleVarChange` of `DockerfileSetup.tsx`: always recomputes from the
constant `defaultDockerfile`.  The unescaped regex dots in
`/golang:1.18-alpine/g` and `/alpine:3.16/g` are modelled as literal
characters: these rules are only ever applied to the fixed string
`defaultDockerfile`, on which the wildcard and the literal reading match
exactly the same substrings. -/
def dkHandleVarChange (name : String) (value : Str) (s : DockerState) : DockerState :=
  let vars2 := jset s.vars name (.str value)
  let updated : Str :=
    if name = "goVersion" then
      replaceAll defaultDockerfile (("golang:1.18-alpine").data) ((("golang:").data) ++ value)
    else if name = "baseImage" then
      replaceAll defaultDockerfile (("alpine:3.16").data) value
    else if name = "port" then
      replaceAll defaultDockerfile (("EXPOSE 8080").data) ((("EXPOSE ").data) ++ value)
    else if name = "mainPath" then
      replaceAll defaultDockerfile (("./cmd/api").data) value
    else defaultDockerfile
  dkEffect { s with vars := vars2, dockerfile := updated }

def dkCurrentConfig (s : DockerState) : JVal :=
  .obj [("dockerfile", .str s.dockerfile), ("vars", s.vars)]

def dkHandleApplyChanges (s : DockerState) (store : Configs) : Configs × DockerState :=
  (applyConfig store ("dockerfile") (dkCurrentConfig s),
   { s with hasUnsavedChanges := false })

def dkHandleNextStep (s : DockerState) (store : Configs) :
    (Configs × DockerState) × List (String × JVal) :=
  if s.hasUnsavedChanges then
    (dkHandleApplyChanges s store, [(("dockerfile" : String), dkCurrentConfig s)])
  else ((store, s), [])

/-- Initial `repoConfig` object of `RepositorySetup.tsx`. -/
def defaultRepoConfig : JVal :=
  .obj [("repoUrl", .str (("https://github.com/yourusername/go-microservice.git").data)),
        ("branch", .str (("main").data)),
        ("credentials", .str (("jenkins-git-credentials").data)),
        ("jenkinsUrl", .str (("http://jenkins.example.com:8080").data)),
        ("jenkinsCredentials", .str (("jenkins-admin-credentials").data))]

structure RepoState where
  repoConfig : JVal

/-- The events `RepositorySetup.tsx` exposes to the view layer: a form-field
change (`handleChange`) and the continue button (`goToNextStep`).  The
component imports no store accessor and has no apply handler. -/
inductive RepoEvent where
  | fieldChange : String → Str → RepoEvent
  | goNext : RepoEvent

/-- One step of `RepositorySetup`: returns the next state together with the
list of store writes performed (there is no `applyConfig` call anywhere in
the component, so the write list is always empty). -/
def repoStep (s : RepoState) : RepoEvent → RepoState × List (String × JVal)
  | .fieldChange name value => ({ repoConfig := jset s.repoConfig name (.str value) }, [])
  | .goNext => (s, [])

/-- Initial `settings` object of `MonitoringSetup.tsx`. -/
def defaultMonSettings : JVal :=
  .obj [("enablePrometheus", .bool true),
        ("enableGrafana", .bool true),
        ("enableAlertManager", .bool true),
        ("prometheusVersion", .str (("v2.34.0").data)),
        ("grafanaVersion", .str (("9.0.0").data)),
        ("namespace", .str (("monitoring").data)),
        ("persistStorage", .bool false),
        ("grafanaAdminPassword", .str (("admin123").data)),
        ("alertManagerReceivers", .arr [.obj [("name", .str (("slack").data)), ("type", .str (("slack").data))]]),
        ("storageClass", .str (("standard").data)),
        ("prometheusStorageSize", .str (("10Gi").data)),
        ("grafanaStorageSize", .str (("2Gi").data)),
        ("storagePath", .str (("/var/lib/monitoring").data))]

structure MonState where
  prometheusYaml : Str
  grafanaYaml : Str
  dashboardJson : Str
  alertsYaml : Str
  settings : JVal
  hasUnsavedChanges : Bool

def monInit (saved : JVal) : MonState :=
  { prometheusYaml := jsOr (jget saved ("prometheusYaml")) defaultPrometheusYaml,
    grafanaYaml := jsOr (jget saved ("grafanaYaml")) defaultGrafanaYaml,
    dashboardJson := jsOr (jget saved ("dashboardJson")) defaultDashboardJson,
    alertsYaml := jsOr (jget saved ("alertsYaml")) defaultAlertsYaml,
    settings := if truthy (jget saved ("settings")) then jget saved ("settings") else defaultMonSettings,
    hasUnsavedChanges := false }

def monEffect (s : MonState) : MonState :=
  { s with hasUnsavedChanges := true }

def monMounted (saved : JVal) : MonState :=
  monEffect (monInit saved)

/-- The start pattern of the global PVC-removal regex: three dashes, then
`apiVersion: v1`, then `kind: PersistentVolumeClaim`, followed in the regex by
a lazy middle ending in `storage: .*Gi`. -/
def pvcStartPat : Str :=
  (("\x2d\x2d\x2d\napiVersion: v1\nkind: PersistentVolumeClaim").data)

/-- `handleSettingsChange` of `MonitoringSetup.tsx`.  Unlike the Jenkinsfile
and Dockerfile editors, every substitution here reads the *current* buffers
(`s.prometheusYaml`, `s.grafanaYaml`), not the default template constants;
the interpolated `settings.*` values in the persistent-storage blocks read the
*previous* settings object (the `settings` binding captured before the
`setSettings` update is rendered). -/
def monHandleSettingsChange (key : String) (value : JVal) (s : MonState) : MonState :=
  let base := monEffect { s with settings := jset s.settings key value }
  if key = "prometheusVersion" then
    { base with prometheusYaml := (replaceScanAll s.prometheusYaml (("prom/prometheus:v").data)
        matchSemVerTail ((("prom/prometheus:").data) ++ jtoStr value)) }
  else if key = "grafanaVersion" then
    { base with grafanaYaml := (replaceScanAll s.grafanaYaml (("grafana/grafana:").data)
        matchSemVerTail ((("grafana/grafana:").data) ++ jtoStr value)) }
  else if key = "namespace" then
    { base with
        prometheusYaml := (replaceAll s.prometheusYaml (("namespace: monitoring").data)
          ((("namespace: ").data) ++ jtoStr value)),
        grafanaYaml := (replaceAll s.grafanaYaml (("namespace: monitoring").data)
          ((("namespace: ").data) ++ jtoStr value)) }
  else if key = "grafanaAdminPassword" then
    { base with grafanaYaml := (replaceAll s.grafanaYaml (("value: admin123").data)
        ((("value: ").data) ++ jtoStr value)) }
  else if key = "persistStorage" then
    match value with
    | .bool true =>
      let ns := jtoStr (jget s.settings ("namespace"))
      let sc := jtoStr (jget s.settings ("storageClass"))
      { base with
          prometheusYaml := (replaceSpanAllLit s.prometheusYaml (("      volumes:").data)
            (("emptyDir: \x7b\x7d").data)
            (persistentPrometheusStorageBlock ns sc (jtoStr (jget s.settings ("prometheusStorageSize"))))),
          grafanaYaml := (replaceSpanAllLit s.grafanaYaml (("      volumes:").data)
            (("emptyDir: \x7b\x7d").data)
            (persistentGrafanaStorageBlock ns sc (jtoStr (jget s.settings ("grafanaStorageSize"))))) }
    | .bool false =>
      let pWithout := replaceSpanAll s.prometheusYaml pvcStartPat storageGiEnd []
      let gWithout := replaceSpanAll s.grafanaYaml pvcStartPat storageGiEnd []
      { base with
          prometheusYaml := (replaceSpanAllLit pWithout (("      volumes:").data)
            (("claimName: prometheus-storage").data) nonPersistentPrometheusStorage),
          grafanaYaml := (replaceSpanAllLit gWithout (("      volumes:").data)
            (("claimName: grafana-storage").data) nonPersistentGrafanaStorage) }
    | _ => base
  else if (key = "storageClass" ∨ key = "prometheusStorageSize" ∨ key = "grafanaStorageSize")
      ∧ truthy (jget s.settings ("persistStorage")) = true then
    let pY :=
      if containsSub s.prometheusYaml (("PersistentVolumeClaim").data) then
        if key = "storageClass" then
          replaceLineFromFirst s.prometheusYaml (("storageClassName: ").data)
            ((("storageClassName: ").data) ++ jtoStr value)
        else if key = "prometheusStorageSize" then
          replaceStorageAll s.prometheusYaml ((("storage: ").data) ++ jtoStr value)
        else s.prometheusYaml
      else s.prometheusYaml
    let gY :=
      if containsSub s.grafanaYaml (("PersistentVolumeClaim").data) then
        if key = "storageClass" then
          replaceLineFromFirst s.grafanaYaml (("storageClassName: ").data)
            ((("storageClassName: ").data) ++ jtoStr value)
        else if key = "grafanaStorageSize" then
          replaceStorageAll s.grafanaYaml ((("storage: ").data) ++ jtoStr value)
        else s.grafanaYaml
      else s.grafanaYaml
    { base with prometheusYaml := pY, grafanaYaml := gY }
  else base

def monCurrentConfig (s : MonState) : JVal :=
  .obj [("prometheusYaml", .str s.prometheusYaml),
        ("grafanaYaml", .str s.grafanaYaml),
        ("dashboardJson", .str s.dashboardJson),
        ("alertsYaml", .str s.alertsYaml),
        ("settings", s.settings)]

def monHandleApplyChanges (s : MonState) (store : Configs) : Configs × MonState :=
  (applyConfig store ("monitoringSetup") (monCurrentConfig s),
   { s with hasUnsavedChanges := false })

def monHandleNextStep (s : MonState) (store : Configs) :
    (Configs × MonState) × List (String × JVal) :=
  if s.hasUnsavedChanges then
    (monHandleApplyChanges s store, [(("monitoringSetup" : String), monCurrentConfig s)])
  else ((store, s), [])

/-- State of `KubernetesSetup.tsx` (buffers, persistence settings, vars, and
the unsaved-changes flag).  Only the pieces needed by the apply/next-step
contract are modelled; the substitution handlers of this editor are not used
by any claim. -/
structure K8sState where
  deploymentYaml : Str
  serviceYaml : Str
  redisYaml : Str
  configMapYaml : Str
  persistentVolumeYaml : Str
  persistentVolumeClaimYaml : Str
  enablePersistence : Bool
  cloudProvider : Str
  storageClass : Str
  diskSize : Str
  volumePath : Str
  vars : JVal
  hasUnsavedChanges : Bool

/-- The `currentConfig` object of `KubernetesSetup.handleApplyChanges`. -/
def k8sCurrentConfig (s : K8sState) : JVal :=
  .obj [("deploymentYaml", .str s.deploymentYaml),
        ("serviceYaml", .str s.serviceYaml),
        ("redisYaml", .str s.redisYaml),
        ("configMapYaml", .str s.configMapYaml),
        ("persistentVolumeYaml", .str s.persistentVolumeYaml),
        ("persistentVolumeClaimYaml", .str s.persistentVolumeClaimYaml),
        ("enablePersistence", .bool s.enablePersistence),
        ("cloudProvider", .str s.cloudProvider),
        ("storageClass", .str s.storageClass),
        ("diskSize", .str s.diskSize),
        ("volumePath", .str s.volumePath),
        ("vars", s.vars)]

def k8sHandleApplyChanges (s : K8sState) (store : Configs) : Configs × K8sState :=
  (applyConfig store ("kubernetes") (k8sCurrentConfig s),
   { s with hasUnsavedChanges := false })

def k8sHandleNextStep (s : K8sState) (store : Configs) :
    (Configs × K8sState) × List (String × JVal) :=
  if s.hasUnsavedChanges then
    (k8sHandleApplyChanges s store, [(("kubernetes" : String), k8sCurrentConfig s)])
  else ((store, s), [])

/-- State of `DeploymentConfig.tsx`. -/
structure DeployState where
  envSampleFile : Str
  readmeFile : Str
  documentationFile : Str
  settings : JVal
  hasUnsavedChanges : Bool

def depCurrentConfig (s : DeployState) : JVal :=
  .obj [("envSampleFile", .str s.envSampleFile),
        ("readmeFile", .str s.readmeFile),
        ("documentationFile", .str s.documentationFile),
        ("settings", s.settings)]

def depHandleApplyChanges (s : DeployState) (store : Configs) : Configs × DeployState :=
  (applyConfig store ("deploymentConfig") (depCurrentConfig s),
   { s with hasUnsavedChanges := false })

def depHandleNextStep (s : DeployState) (store : Configs) :
    (Configs × DeployState) × List (String × JVal) :=
  if s.hasUnsavedChanges then
    (depHandleApplyChanges s store, [(("deploymentConfig" : String), depCurrentConfig s)])
  else ((store, s), [])

/-- `generateSampleContent(name, type)` of `ExportProject.tsx`.  The
`Math.floor(Math.random() * 1000) + 1` draw made at the top of each call is
passed in as the `buildNumber` parameter. -/
def generateSampleContent (name ftype : String) (configs : Configs) (buildNumber : Nat) : Str :=
  if name = "Jenkinsfile" then
    if truthy (jgetR configs ("jenkinsfile"))
        && truthy (jget (jgetR configs ("jenkinsfile")) ("jenkinsfile")) then
      jtoStr (jget (jgetR configs ("jenkinsfile")) ("jenkinsfile"))
    else
      jenkinsfileSample configs buildNumber
  else if name = "Dockerfile" then
    if truthy (jgetR configs ("dockerfile"))
        && truthy (jget (jgetR configs ("dockerfile")) ("dockerfile")) then
      jtoStr (jget (jgetR configs ("dockerfile")) ("dockerfile"))
    else
      dockerfileSample
  else if ftype = "manifest" then
    if name = "deployment.yaml" then deploymentYamlSample configs buildNumber
    else genericManifestSample name
  else
    defaultFileSample name

/-- The fixed `(name, type)` list of the export step's `files` array (the
`content` of each entry is `generateSampleContent` applied to that pair, with
a fresh random `buildNumber` drawn inside each call). -/
def exportFileList : List (String × String) :=
  [(("Jenkinsfile"), ("config")),
   (("Dockerfile"), ("config")),
   (("deployment.yaml"), ("manifest")),
   (("service.yaml"), ("manifest")),
   (("redis.yaml"), ("manifest")),
   (("configmap.yaml"), ("manifest")),
   (("prometheus.yaml"), ("manifest")),
   (("grafana.yaml"), ("manifest")),
   (("dashboard.json"), ("manifest")),
   ((".env.sample"), ("config")),
   (("README.md"), ("config")),
   (("DOCUMENTATION.md"), ("config"))]

/-! ## Helper lemmas shared by the claim theorems -/

/-- Boolean character-list equality agrees with propositional equality. -/
theorem strEq_iff_eq : ∀ {a b : Str}, strEq a b = true ↔ a = b := by
  intro a
  induction a with
  | nil => intro b; cases b <;> simp [strEq]
  | cons c as ih =>
    intro b
    cases b with
    | nil => simp [strEq]
    | cons d bs => simp [strEq, ih]

/-- A computed `strEq` refutation yields a propositional disequality. -/
theorem ne_of_strEq_false {a b : Str} (h : strEq a b = false) : a ≠ b := by
  intro he
  rw [strEq_iff_eq.mpr he] at h
  exact absurd h (by decide)

/-- Looking up the key just written by `setField` returns the written value. -/
theorem lookupVal_setField (m : Configs) (k : String) (v : JVal) :
    lookupVal (setField m k v) k = some v := by
  induction m with
  | nil => simp [setField, lookupVal]
  | cons p rest ih =>
    cases p with
    | mk k2 v2 =>
      by_cases h : k2 = k
      · simp [setField, h, lookupVal]
      · simp [setField, h, lookupVal, ih]

/-- Reading back a truthy value just written through `applyConfig`. -/
theorem getConfig_applyConfig (store : Configs) (k : String) (v : JVal)
    (h : truthy v = true) :
    getConfig (applyConfig store k v) k = v := by
  simp [getConfig, applyConfig, lookupVal_setField, h]

/-- One wizard `next` keeps the step index within the last step. -/
theorem handleNextStepIndex_le (n : Nat) : handleNextStepIndex n ≤ 8 :=
  min_le_right _ _

/-! ## Claim theorems -/

/-- C1, counterexample: the claim says every editor recomputes its derived
buffer by applying the substitution rules to the static default template.
In `MonitoringSetup.handleSettingsChange` the `namespace` rule is applied to
the *current* buffer instead: after changing the namespace to `prod` and then
to `dev`, the prometheus buffer differs from the rules-applied-to-default
result (it still carries `prod`, because `namespace: monitoring` no longer
occurs in the current buffer). -/
theorem C1_counterexample :
    (monHandleSettingsChange ("namespace") (.str (("dev").data))
        (monHandleSettingsChange ("namespace") (.str (("prod").data))
          (monMounted (.obj [])))).prometheusYaml
      ≠ replaceAll defaultPrometheusYaml (("namespace: monitoring").data)
          (("namespace: dev").data) :=
  ne_of_strEq_false (by decide)

/-- C1, amended: the Jenkinsfile and Dockerfile editors recompute the derived
buffer from the static default template constant — their results do not depend
on the buffer's current value — while the monitoring editor applies its
substitution rules to the buffer's current value (shown here for the
`namespace` rule: the new buffer is the literal global replacement performed
on the current `prometheusYaml`). -/
theorem C1_amended :
    (∀ (name : String) (value : Str) (s s2 : JenkinsState),
        (jfHandleVarChange name value s).jenkinsfile
          = (jfHandleVarChange name value s2).jenkinsfile)
    ∧ (∀ (name : String) (value : Str) (s s2 : DockerState),
        (dkHandleVarChange name value s).dockerfile
          = (dkHandleVarChange name value s2).dockerfile)
    ∧ (∀ (value : JVal) (s : MonState),
        (monHandleSettingsChange ("namespace") value s).prometheusYaml
          = replaceAll s.prometheusYaml (("namespace: monitoring").data)
              ((("namespace: ").data) ++ jtoStr value)) := by
  refine ⟨?_, ?_, ?_⟩
  · intro name value s s2
    rfl
  · intro name value s s2
    rfl
  · intro value s
    rfl

/-- C2, counterexample: the claim says a changed field leaves zero occurrences
of the stale literal whenever its rule targets that literal.  The
`dockerUsername` rule of the Jenkinsfile editor targets the literal
`DOCKER_USERNAME` but uses a string-pattern `replace`, which rewrites only the
first occurrence; after changing the field to `alice`, the stale literal still
occurs in the derived buffer. -/
theorem C2_counterexample :
    containsSub
      (jfHandleVarChange ("dockerUsername") (("alice").data)
        (jfMounted (.obj []))).jenkinsfile
      (("DOCKER_USERNAME").data) = true := by decide

/-- C2, amended: fields whose rules are global-regex replacements behave as
the claim states — `imageName` and `kubeConfigId` on the Jenkinsfile editor,
and the spec's own example, `prometheusVersion` changed from the default
`v2.34.0` to `v2.36.0` on the monitoring editor, yield buffers containing the
new value with zero stale occurrences — but the `dockerUsername` rule replaces
only the first occurrence of `DOCKER_USERNAME` (leaving stale occurrences),
and the `dockerCredentialsId` rule's pattern `credentials('docker-credentials')`
does not occur in the default template (the template has
`credentialsId: 'docker-credentials'`), so that change is a silent no-op. -/
theorem C2_amended :
    (containsSub (jfHandleVarChange ("imageName") (("my-service").data)
        (jfMounted (.obj []))).jenkinsfile (("go-microservice").data) = false
      ∧ containsSub (jfHandleVarChange ("imageName") (("my-service").data)
          (jfMounted (.obj []))).jenkinsfile
          (("IMAGE_NAME = \x27my-service\x27").data) = true)
    ∧ (containsSub (jfHandleVarChange ("kubeConfigId") (("my-kube").data)
        (jfMounted (.obj []))).jenkinsfile
        (("credentials(\x27kubeconfig\x27)").data) = false
      ∧ containsSub (jfHandleVarChange ("kubeConfigId") (("my-kube").data)
          (jfMounted (.obj []))).jenkinsfile
          (("credentials(\x27my-kube\x27)").data) = true)
    ∧ (containsSub (monHandleSettingsChange ("prometheusVersion")
        (.str (("v2.36.0").data)) (monMounted (.obj []))).prometheusYaml
        (("v2.34.0").data) = false
      ∧ containsSub (monHandleSettingsChange ("prometheusVersion")
          (.str (("v2.36.0").data)) (monMounted (.obj []))).prometheusYaml
          (("prom/prometheus:v2.36.0").data) = true)
    ∧ containsSub (jfHandleVarChange ("dockerUsername") (("alice").data)
        (jfMounted (.obj []))).jenkinsfile (("DOCKER_USERNAME").data) = true
    ∧ (jfHandleVarChange ("dockerCredentialsId") (("x").data)
        (jfMounted (.obj []))).jenkinsfile = defaultJenkinsfile := by
  refine ⟨⟨?_, ?_⟩, ⟨?_, ?_⟩, ⟨?_, ?_⟩, ?_, ?_⟩
  · decide
  · decide
  · decide
  · decide
  · decide
  · decide
  · decide
  · exact strEq_iff_eq.mp (by decide)

/-- A store in which the monitoring domain has been applied: the monitoring
editor is mounted over an empty store (all defaults) and its apply action is
invoked. -/
def monAppliedStore : Configs :=
  (monHandleApplyChanges (monMounted (.obj [])) []).1

/-- A store in which the Jenkinsfile domain has been applied: the Jenkinsfile
editor is mounted over an empty store and its apply action is invoked. -/
def jfAppliedStore : Configs :=
  (jfHandleApplyChanges (jfMounted (.obj [])) []).1

/-- C3, counterexample: the claim says that for every file in the export list,
if the file's domain has been applied, the exported content equals the applied
buffer.  After applying the monitoring domain (whose applied config stores the
`prometheusYaml` buffer), exporting `prometheus.yaml` still produces the
generic built-in manifest sample — `generateSampleContent` never reads the
`monitoringSetup` entry — which differs from the applied buffer. -/
theorem C3_counterexample :
    (lookupVal monAppliedStore ("monitoringSetup")).isSome = true
      ∧ generateSampleContent ("prometheus.yaml") ("manifest") monAppliedStore 7
          ≠ jtoStr (jget (jgetR monAppliedStore ("monitoringSetup")) ("prometheusYaml")) :=
  ⟨by decide, ne_of_strEq_false (by decide)⟩

/-- C3, amended: only the `Jenkinsfile` and `Dockerfile` entries honour an
applied buffer — when a truthy buffer for their domain is in the store the
export equals that stored buffer — while the export of every other file is
independent of the store and of the random build number (shown concretely for
`prometheus.yaml`, and generically for every manifest-typed name other than
`deployment.yaml` and every config-typed name other than the two honoured
ones), even when its domain has been applied.  `deployment.yaml` is the
remaining case: its sample interpolates the jenkinsfile vars and the fresh
random build number. -/
theorem C3_amended :
    (∀ (configs : Configs) (b : Nat),
        truthy (jgetR configs ("jenkinsfile")) = true →
        truthy (jget (jgetR configs ("jenkinsfile")) ("jenkinsfile")) = true →
        generateSampleContent ("Jenkinsfile") ("config") configs b
          = jtoStr (jget (jgetR configs ("jenkinsfile")) ("jenkinsfile")))
    ∧ (∀ (configs : Configs) (b : Nat),
        truthy (jgetR configs ("dockerfile")) = true →
        truthy (jget (jgetR configs ("dockerfile")) ("dockerfile")) = true →
        generateSampleContent ("Dockerfile") ("config") configs b
          = jtoStr (jget (jgetR configs ("dockerfile")) ("dockerfile")))
    ∧ (∀ (configs configs2 : Configs) (b b2 : Nat),
        generateSampleContent ("prometheus.yaml") ("manifest") configs b
          = generateSampleContent ("prometheus.yaml") ("manifest") configs2 b2)
    ∧ (∀ (name : String) (configs configs2 : Configs) (b b2 : Nat),
        name ≠ ("Jenkinsfile") → name ≠ ("Dockerfile") → name ≠ ("deployment.yaml") →
        generateSampleContent name ("manifest") configs b
          = generateSampleContent name ("manifest") configs2 b2)
    ∧ (∀ (name : String) (configs configs2 : Configs) (b b2 : Nat),
        name ≠ ("Jenkinsfile") → name ≠ ("Dockerfile") →
        generateSampleContent name ("config") configs b
          = generateSampleContent name ("config") configs2 b2) := by
  refine ⟨?_, ?_, ?_, ?_, ?_⟩
  · intro configs b h1 h2
    simp [generateSampleContent, h1, h2]
  · intro configs b h1 h2
    simp [generateSampleContent, h1, h2]
  · intro configs configs2 b b2
    rfl
  · intro name configs configs2 b b2 h1 h2 h3
    simp [generateSampleContent, h1, h2, h3]
  · intro name configs configs2 b b2 h1 h2
    simp [generateSampleContent, h1, h2]

/-- C3, witness for the amended theorem, at a store where the Jenkinsfile
domain has been applied. -/
theorem C3_amended_witness :
    generateSampleContent ("Jenkinsfile") ("config") jfAppliedStore 3
      = jtoStr (jget (jgetR jfAppliedStore ("jenkinsfile")) ("jenkinsfile")) :=
  C3_amended.1 jfAppliedStore 3 (by decide) (by decide)

/-- C4, counterexample: the claim says every per-step editor, including the
repository-settings step, exposes an apply action writing its settings to the
shared store.  `RepositorySetup` has no apply action: editing the branch field
and pressing continue from the freshly mounted state performs no store write
at all (the general statement, over every state and event, is the last
conjunct of the amended theorem). -/
theorem C4_counterexample :
    (repoStep { repoConfig := defaultRepoConfig }
        (.fieldChange ("branch") (("dev").data))).2 = []
      ∧ (repoStep { repoConfig := defaultRepoConfig } .goNext).2 = [] :=
  ⟨rfl, rfl⟩

/-- C4, amended: the Jenkinsfile, Dockerfile, Kubernetes, Deployment and
Monitoring editors each expose an explicit apply action that writes their
`\x7bsettings/vars, buffers\x7d` config object to the shared store under their
step identifier (reading the identifier back returns exactly the written
object) and clears the unsaved-changes flag; the repository-settings step
maintains only local form state and performs no store write at all. -/
theorem C4_amended :
    (∀ (s : JenkinsState) (store : Configs),
        getConfig ((jfHandleApplyChanges s store).1) ("jenkinsfile") = jfCurrentConfig s
          ∧ ((jfHandleApplyChanges s store).2).hasUnsavedChanges = false)
    ∧ (∀ (s : DockerState) (store : Configs),
        getConfig ((dkHandleApplyChanges s store).1) ("dockerfile") = dkCurrentConfig s
          ∧ ((dkHandleApplyChanges s store).2).hasUnsavedChanges = false)
    ∧ (∀ (s : K8sState) (store : Configs),
        getConfig ((k8sHandleApplyChanges s store).1) ("kubernetes") = k8sCurrentConfig s
          ∧ ((k8sHandleApplyChanges s store).2).hasUnsavedChanges = false)
    ∧ (∀ (s : DeployState) (store : Configs),
        getConfig ((depHandleApplyChanges s store).1) ("deploymentConfig") = depCurrentConfig s
          ∧ ((depHandleApplyChanges s store).2).hasUnsavedChanges = false)
    ∧ (∀ (s : MonState) (store : Configs),
        getConfig ((monHandleApplyChanges s store).1) ("monitoringSetup") = monCurrentConfig s
          ∧ ((monHandleApplyChanges s store).2).hasUnsavedChanges = false)
    ∧ (∀ (s : RepoState) (e : RepoEvent), (repoStep s e).2 = []) := by
  refine ⟨?_, ?_, ?_, ?_, ?_, ?_⟩
  · intro s store
    exact ⟨getConfig_applyConfig store _ _ rfl, rfl⟩
  · intro s store
    exact ⟨getConfig_applyConfig store _ _ rfl, rfl⟩
  · intro s store
    exact ⟨getConfig_applyConfig store _ _ rfl, rfl⟩
  · intro s store
    exact ⟨getConfig_applyConfig store _ _ rfl, rfl⟩
  · intro s store
    exact ⟨getConfig_applyConfig store _ _ rfl, rfl⟩
  · intro s e
    cases e <;> rfl

/-- C5: writing a configuration object through `setConfig` (`applyConfig` in
the source) and immediately reading the same step identifier back through
`getConfig` returns exactly the written object, for any prior store contents:
the write replaces the previous object for that identifier in its entirety
(last-write-wins, no merge). -/
theorem C5_set_then_get :
    ∀ (store : Configs) (stepId : String) (fields : List (String × JVal)),
      getConfig (applyConfig store stepId (.obj fields)) stepId = .obj fields := by
  intro store stepId fields
  exact getConfig_applyConfig store stepId (.obj fields) rfl

/-- C6: for a step identifier that was never written (no entry in the store's
record), `getConfig` returns the empty object — not `undefined` and not an
error. -/
theorem C6_get_unwritten :
    ∀ (store : Configs) (stepId : String),
      lookupVal store stepId = none → getConfig store stepId = .obj [] := by
  intro store stepId h
  simp [getConfig, h]

/-- C6, witness: a concrete store holding only the `jenkinsfile` entry read at
the never-written `kubernetes` identifier. -/
theorem C6_get_unwritten_witness :
    getConfig jfAppliedStore ("kubernetes") = .obj [] :=
  C6_get_unwritten jfAppliedStore ("kubernetes") rfl

/-- C7: for each editor, invoking the next-step action performs exactly one
store write (one `applyConfig` call) when the unsaved-changes flag is set, and
zero writes when it is clear. -/
theorem C7_next_step_write_count :
    (∀ (s : JenkinsState) (store : Configs),
        ((jfHandleNextStep s store).2).length = if s.hasUnsavedChanges then 1 else 0)
    ∧ (∀ (s : DockerState) (store : Configs),
        ((dkHandleNextStep s store).2).length = if s.hasUnsavedChanges then 1 else 0)
    ∧ (∀ (s : K8sState) (store : Configs),
        ((k8sHandleNextStep s store).2).length = if s.hasUnsavedChanges then 1 else 0)
    ∧ (∀ (s : DeployState) (store : Configs),
        ((depHandleNextStep s store).2).length = if s.hasUnsavedChanges then 1 else 0)
    ∧ (∀ (s : MonState) (store : Configs),
        ((monHandleNextStep s store).2).length = if s.hasUnsavedChanges then 1 else 0) := by
  refine ⟨?_, ?_, ?_, ?_, ?_⟩ <;>
    · intro s store
      by_cases h : s.hasUnsavedChanges <;>
        simp [jfHandleNextStep, dkHandleNextStep, k8sHandleNextStep,
              depHandleNextStep, monHandleNextStep, h]

/-- C8: the wizard shell's step index stays in `0..8`: starting from any index
at most `8`, any number of `next` invocations stays at most `8`, and `next`
from the final step is a no-op (clamps at the maximum). -/
theorem C8_index_clamped :
    (∀ (n k : Nat), n ≤ 8 → handleNextStepIndex^[k] n ≤ 8)
      ∧ handleNextStepIndex 8 = 8 := by
  constructor
  · intro n k
    induction k generalizing n with
    | zero => intro h; simpa using h
    | succ k ih =>
      intro h
      rw [Function.iterate_succ_apply]
      exact ih _ (handleNextStepIndex_le n)
  · rfl

/-- C8, witness: one hundred `next` invocations from step `0` stay within the
final index. -/
theorem C8_index_clamped_witness :
    handleNextStepIndex^[100] 0 ≤ 8 :=
  C8_index_clamped.1 0 100 (by decide)

/-- C9: immediately after an editor mounts — before any user edit — the
unsaved-changes flag is already `true`, because the change-tracking effect
fires on the initial render; consequently invoking next-step right after
mounting performs exactly one apply (one store write of the seeded state). -/
theorem C9_mount_sets_flag :
    (∀ (saved : JVal) (store : Configs),
        (jfMounted saved).hasUnsavedChanges = true
          ∧ ((jfHandleNextStep (jfMounted saved) store).2).length = 1)
    ∧ (∀ (saved : JVal) (store : Configs),
        (dkMounted saved).hasUnsavedChanges = true
          ∧ ((dkHandleNextStep (dkMounted saved) store).2).length = 1)
    ∧ (∀ (saved : JVal) (store : Configs),
        (monMounted saved).hasUnsavedChanges = true
          ∧ ((monHandleNextStep (monMounted saved) store).2).length = 1) := by
  refine ⟨?_, ?_, ?_⟩ <;>
    · intro saved store
      exact ⟨rfl, rfl⟩

/-- C10: exported Jenkinsfile content is deterministic exactly when a
jenkinsfile buffer has been applied: with a truthy stored buffer the content
is independent of the randomly drawn build number, while over the empty store
the fallback sample embeds the fresh random build number, so two draws can
produce different content. -/
theorem C10_export_determinism :
    (∀ (configs : Configs) (b1 b2 : Nat),
        truthy (jgetR configs ("jenkinsfile")) = true →
        truthy (jget (jgetR configs ("jenkinsfile")) ("jenkinsfile")) = true →
        generateSampleContent ("Jenkinsfile") ("config") configs b1
          = generateSampleContent ("Jenkinsfile") ("config") configs b2)
    ∧ generateSampleContent ("Jenkinsfile") ("config") [] 1
        ≠ generateSampleContent ("Jenkinsfile") ("config") [] 2 := by
  constructor
  · intro configs b1 b2 h1 h2
    simp [generateSampleContent, h1, h2]
  · exact ne_of_strEq_false (by decide)

/-- C10, witness for the deterministic half, at a store where the Jenkinsfile
domain has been applied and two different build numbers are drawn. -/
theorem C10_export_determinism_witness :
    generateSampleContent ("Jenkinsfile") ("config") jfAppliedStore 5
      = generateSampleContent ("Jenkinsfile") ("config") jfAppliedStore 99 :=
  C10_export_determinism.1 jfAppliedStore 5 99 (by decide) (by decide)
